import Mathlib

/-!
Shallow embedding of the MATCH model's two constraint builders:

* `switch_model/balancing/demand_response/simple.py` (demand-shift builder:
  day partition, shift-limit parameters, `ShiftDemand` variable bounds, the
  `DR_Shift_Net_Zero` constraint family, input loading/validation), and
* `switch_model/generators/core/no_commit.py` (dispatch-limit builder:
  baseload flattening, dispatch upper limits, excess-generation accounting
  and the optional annual excess cap).

Timepoints, zones, periods and generators are identified by naturals.
Real-valued data is modelled by `ℚ`.  The value `float("inf")` used by the
source as a parameter default is modelled by `Option ℚ` with `none`
standing for plus infinity.  Solver-determined decision variables are a
`Solution` record; a declared constraint family is a Lean function from the
index tuple to the `Prop` the constraint imposes on a solution, together
with an explicit Lean list for its index set where a claim is about which
indices are declared.
-/

/-- Immutable model data: the index sets and parameters that the two
builders read.  Fields named after upstream Pyomo components
(`switch_model.timescales`, `load_zones`, `generators.core.build/dispatch`)
whose defining modules are not part of this repository are taken as given
data here. -/
structure ModelData where
  TIMEPOINTS : List Nat
  LOAD_ZONES : List Nat
  PERIODS : List Nat
  /-- day number of each timepoint (Param `tp_day`, within `DAYS`). -/
  tp_day : Nat → Nat
  /-- period of each timepoint (from `switch_model.timescales`). -/
  tp_period : Nat → Nat
  GENERATION_PROJECTS : List Nat
  VARIABLE_GENS : List Nat
  BASELOAD_GENS : List Nat
  STORAGE_GENS : List Nat
  /-- the (generator, timepoint) pairs at which a generator can be active
  (set `GEN_TPS` of `generators.core.dispatch`). -/
  GEN_TPS : List (Nat × Nat)
  PERIODS_FOR_GEN : Nat → List Nat
  GenCapacityInTP : Nat → Nat → ℚ
  gen_availability : Nat → ℚ
  gen_max_capacity_factor : Nat → Nat → ℚ
  GenCapacity : Nat → Nat → ℚ
  /-- Param `gen_excess_max`, within NonNegativeReals, default `float("inf")`
  (modelled as `none`). -/
  gen_excess_max : Nat → Option ℚ
  zone_demand_mw : Nat → Nat → ℚ

/-- Solver-determined values of the decision variables consumed or declared
by the two builders. -/
structure Solution where
  ShiftDemand : Nat → Nat → ℚ
  DispatchGen : Nat → Nat → ℚ
  DispatchBaseloadByPeriod : Nat → Nat → ℚ

/-! ## Demand-shift builder (`balancing/demand_response/simple.py`) -/

/-- `mod.DAYS = Set(ordered=True, initialize=range(1, 366))`. -/
def DAYS : List Nat := List.range' 1 365

/-- `TPS_IN_DAYS[d] = [t for t in m.TIMEPOINTS if m.tp_day[t] == d]`. -/
def TPS_IN_DAYS (M : ModelData) (d : Nat) : List Nat :=
  M.TIMEPOINTS.filter (fun t => M.tp_day t == d)

/-- One row of the optional `dr_data.csv` input:
`LOAD_ZONE, TIMEPOINT, dr_shift_down_limit, dr_shift_up_limit`. -/
structure DRRow where
  zone : Nat
  tp : Nat
  down : ℚ
  up : ℚ
deriving DecidableEq

/-- The row of `dr_data.csv` supplying values for `(z, t)`, if any. -/
def lookupDR (rows : List DRRow) (z t : Nat) : Option DRRow :=
  rows.find? (fun r => r.zone == z && r.tp == t)

/-- Param `dr_shift_down_limit[z,t]`: the loaded value, or its default 0. -/
def dr_shift_down_limit (rows : List DRRow) (z t : Nat) : ℚ :=
  match lookupDR rows z t with
  | some r => r.down
  | none => 0

/-- Param `dr_shift_up_limit[z,t]`: the loaded value, or its default
`float("inf")` (`none`). -/
def dr_shift_up_limit (rows : List DRRow) (z t : Nat) : Option ℚ :=
  match lookupDR rows z t with
  | some r => some r.up
  | none => none

/-- `v` is at most the (possibly infinite) upper bound `u`. -/
def leUB (v : ℚ) (u : Option ℚ) : Prop :=
  match u with
  | some q => v ≤ q
  | none => True

/-- The (possibly infinite) bound `u` is non-negative. -/
def ubNonneg (u : Option ℚ) : Prop :=
  match u with
  | some q => 0 ≤ q
  | none => True

/-- Load-time validation of the `dr_data.csv` rows, as Pyomo performs it
when the two Params are constructed: each supplied pair must index a
declared `(LOAD_ZONES, TIMEPOINTS)` element, both values must lie in the
Params' domain `NonNegativeReals`, and `dr_shift_down_limit` must pass
`validate=lambda m, value, z, t: value <= m.zone_demand_mw[z, t]`. -/
def drDataValid (M : ModelData) (rows : List DRRow) : Bool :=
  rows.all (fun r =>
    (r.zone ∈ M.LOAD_ZONES : Bool) && (r.tp ∈ M.TIMEPOINTS : Bool)
    && decide (0 ≤ r.down) && decide (r.down ≤ M.zone_demand_mw r.zone r.tp)
    && decide (0 ≤ r.up))

/-- Constructing the two shift-limit Params from the (possibly empty) rows
of the optional `dr_data.csv`.  A validation failure raises at load time
and aborts model construction: no partial model is produced (`none`). -/
def buildDRParams (M : ModelData) (rows : List DRRow) :
    Option ((Nat → Nat → ℚ) × (Nat → Nat → Option ℚ)) :=
  if drDataValid M rows then
    some (dr_shift_down_limit rows, dr_shift_up_limit rows)
  else none

/-- The index set over which the Var `ShiftDemand` is declared:
`mod.LOAD_ZONES, mod.TIMEPOINTS`. -/
def shiftDemandIndex (M : ModelData) : List (Nat × Nat) :=
  M.LOAD_ZONES.product M.TIMEPOINTS

/-- The bounds declared on `ShiftDemand[z,t]`:
`((-1.0) * m.dr_shift_down_limit[z, t], m.dr_shift_up_limit[z, t])`. -/
def ShiftDemand_bounds (down : Nat → Nat → ℚ) (up : Nat → Nat → Option ℚ)
    (S : Solution) (z t : Nat) : Prop :=
  (-1 : ℚ) * down z t ≤ S.ShiftDemand z t ∧ leUB (S.ShiftDemand z t) (up z t)

/-- Satisfaction by a solution of the equality
`sum(m.ShiftDemand[z, t] for t in m.TPS_IN_DAYS[d]) == 0.0`.  This is the
meaning of the constraint `DR_Shift_Net_Zero[z,d]` when day `d` has at
least one timepoint; when it has none, the rule does not produce a
constraint at all but the native Boolean `True`, which aborts
construction — see `DR_Shift_Net_Zero_rule` and `buildDRShiftNetZero`. -/
def DR_Shift_Net_Zero (M : ModelData) (S : Solution) (z d : Nat) : Prop :=
  ((TPS_IN_DAYS M d).map (fun t => S.ShiftDemand z t)).sum = 0

/-- One declared constraint of the `DR_Shift_Net_Zero` family: its zone,
its day, and the timepoints whose `ShiftDemand[zone, ·]` terms its body
sums (no other variable appears in the body). -/
structure DRCon where
  zone : Nat
  day : Nat
  tps : List Nat
deriving DecidableEq

/-- What constraint `c` imposes on a solution: the sum of
`ShiftDemand[c.zone, t]` over `c.tps` equals zero. -/
def DRCon.holds (c : DRCon) (S : Solution) : Prop :=
  (c.tps.map (fun t => S.ShiftDemand c.zone t)).sum = 0

/-- The constraint family that `Constraint(mod.LOAD_ZONES, mod.DAYS,
rule=...)` yields when its construction succeeds: one constraint per
element of the cross product of the two index sets.  Construction
succeeds only when no rule evaluation degenerates to a native Boolean —
see `buildDRShiftNetZero`. -/
def drShiftNetZeroCons (M : ModelData) : List DRCon :=
  (M.LOAD_ZONES.product DAYS).map (fun zd => ⟨zd.1, zd.2, TPS_IN_DAYS M zd.2⟩)

/-- What the rule `lambda m, z, d: sum(m.ShiftDemand[z, t] for t in
m.TPS_IN_DAYS[d]) == 0.0` produces at `(z, d)`.  With at least one
timepoint in day `d`, the sum is a Pyomo linear expression and the result
is the equality constraint over those timepoints.  With none, Python's
`sum` over the empty generator is the plain int `0`, so the rule returns
the native Boolean `0 == 0.0`, i.e. `True`, and no constraint results
(`none`). -/
def DR_Shift_Net_Zero_rule (M : ModelData) (z d : Nat) : Option DRCon :=
  if (TPS_IN_DAYS M d).isEmpty then none
  else some ⟨z, d, TPS_IN_DAYS M d⟩

/-- Constructing `Constraint(mod.LOAD_ZONES, mod.DAYS, rule=...)`: Pyomo
evaluates the rule at every index of the cross product; a native Boolean
rule result raises `ValueError: Invalid constraint expression ... trivial
Boolean (True)` and aborts model construction, producing no partial
family (`none`); otherwise the family holds one constraint per index. -/
def buildDRShiftNetZero (M : ModelData) : Option (List DRCon) :=
  if (M.LOAD_ZONES.product DAYS).all
      (fun zd => (DR_Shift_Net_Zero_rule M zd.1 zd.2).isSome) then
    some (drShiftNetZeroCons M)
  else none

/-! ## Dispatch-limit builder (`generators/core/no_commit.py`) -/

/-- The timepoints of period `p` (set `TPS_IN_PERIOD` of
`switch_model.timescales`): every timepoint belongs to exactly one period,
given by `tp_period`. -/
def TPS_IN_PERIOD (M : ModelData) (p : Nat) : List Nat :=
  M.TIMEPOINTS.filter (fun t => M.tp_period t == p)

/-- The non-storage generators (set `NON_STORAGE_GENS` of
`generators.core.dispatch`): the generation projects that are not storage. -/
def NON_STORAGE_GENS (M : ModelData) : List Nat :=
  M.GENERATION_PROJECTS.filter (fun g => !(g ∈ M.STORAGE_GENS : Bool))

/-- The non-storage (generator, timepoint) pairs (set `NON_STORAGE_GEN_TPS`
of `generators.core.dispatch`): `GEN_TPS` restricted to non-storage
generators. -/
def NON_STORAGE_GEN_TPS (M : ModelData) : List (Nat × Nat) :=
  M.GEN_TPS.filter (fun gt => !(gt.1 ∈ M.STORAGE_GENS : Bool))

/-- `BASELOAD_GEN_PERIODS =
[(g, p) for g in m.BASELOAD_GENS for p in m.PERIODS_FOR_GEN[g]]`. -/
def BASELOAD_GEN_PERIODS (M : ModelData) : List (Nat × Nat) :=
  M.BASELOAD_GENS.flatMap (fun g => (M.PERIODS_FOR_GEN g).map (fun p => (g, p)))

/-- `BASELOAD_GEN_TPS =
[(g, t) for g, p in m.BASELOAD_GEN_PERIODS for t in m.TPS_IN_PERIOD[p]]`. -/
def BASELOAD_GEN_TPS (M : ModelData) : List (Nat × Nat) :=
  (BASELOAD_GEN_PERIODS M).flatMap
    (fun gp => (TPS_IN_PERIOD M gp.2).map (fun t => (gp.1, t)))

/-- The body of constraint `Enforce_Dispatch_Baseload_Flat[g,t]`:
`m.DispatchGen[g, t] == m.DispatchBaseloadByPeriod[g, m.tp_period[t]]`. -/
def Enforce_Dispatch_Baseload_Flat (M : ModelData) (S : Solution)
    (g t : Nat) : Prop :=
  S.DispatchGen g t = S.DispatchBaseloadByPeriod g (M.tp_period t)

/-- Expression `DispatchUpperLimit[g,t]` (`DispatchUpperLimit_expr`):
capacity times availability, further scaled by the capacity factor when the
generator is variable. -/
def DispatchUpperLimit (M : ModelData) (g t : Nat) : ℚ :=
  if g ∈ M.VARIABLE_GENS then
    M.GenCapacityInTP g t * M.gen_availability g * M.gen_max_capacity_factor g t
  else
    M.GenCapacityInTP g t * M.gen_availability g

/-- The index set of constraint `Enforce_Dispatch_Upper_Limit`:
`mod.NON_STORAGE_GEN_TPS`. -/
def enforceDispatchUpperLimitIndex (M : ModelData) : List (Nat × Nat) :=
  NON_STORAGE_GEN_TPS M

/-- The body of constraint `Enforce_Dispatch_Upper_Limit[g,t]`:
`m.DispatchGen[g, t] <= m.DispatchUpperLimit[g, t]`. -/
def Enforce_Dispatch_Upper_Limit (M : ModelData) (S : Solution)
    (g t : Nat) : Prop :=
  S.DispatchGen g t ≤ DispatchUpperLimit M g t

/-- Expression `ExcessGen[g,t]` (declared over `NON_STORAGE_GEN_TPS`):
`m.DispatchUpperLimit[g, t] - m.DispatchGen[g, t] if g in m.VARIABLE_GENS
else 0`. -/
def ExcessGen (M : ModelData) (S : Solution) (g t : Nat) : ℚ :=
  if g ∈ M.VARIABLE_GENS then DispatchUpperLimit M g t - S.DispatchGen g t
  else 0

/-- Expression `AnnualExcessGen[g,p]` (declared over
`NON_STORAGE_GENS, PERIODS`), per `Calculate_Annual_Excess_Energy_By_Gen`:
`sum(m.ExcessGen[g, t] for t in m.TIMEPOINTS if m.tp_period[t] == p)`. -/
def AnnualExcessGen (M : ModelData) (S : Solution) (g p : Nat) : ℚ :=
  ((M.TIMEPOINTS.filter (fun t => M.tp_period t == p)).map
    (fun t => ExcessGen M S g t)).sum

/-- Outcome of evaluating the `max_AnnualExcessGen` rule at one index
tuple: the rule returns `Constraint.Skip`, or declares a constraint, or
raises a `KeyError` because it indexes the Expression `AnnualExcessGen`
outside its declared index set `NON_STORAGE_GENS × PERIODS`. -/
inductive ConStatus where
  | skip : ConStatus
  | declared : ConStatus
  | buildError : ConStatus
deriving DecidableEq

/-- The index set of constraint `max_AnnualExcessGen`:
`mod.GENERATION_PROJECTS, mod.PERIODS`. -/
def maxAnnualExcessGenIndex (M : ModelData) : List (Nat × Nat) :=
  M.GENERATION_PROJECTS.product M.PERIODS

/-- Structural outcome of the `max_AnnualExcessGen` rule at `(g, p)` with
`p` drawn from `PERIODS`: `Constraint.Skip` when
`m.gen_excess_max[g] == float("inf")`; otherwise the rule evaluates
`m.AnnualExcessGen[g, p]`, which is a valid lookup only when
`g` is in `NON_STORAGE_GENS` (else the build fails with a `KeyError`). -/
def max_AnnualExcessGen_status (M : ModelData) (g _p : Nat) : ConStatus :=
  match M.gen_excess_max g with
  | none => ConStatus.skip
  | some _ =>
    if g ∈ NON_STORAGE_GENS M then ConStatus.declared else ConStatus.buildError

/-- The body of the constraint declared by the `max_AnnualExcessGen` rule
when `gen_excess_max[g]` is a finite `c`:
`m.AnnualExcessGen[g,p] <= m.gen_excess_max[g] * m.GenCapacity[g, p]`
(trivially `True` at a skipped index). -/
def max_AnnualExcessGen_con (M : ModelData) (S : Solution) (g p : Nat) : Prop :=
  match M.gen_excess_max g with
  | none => True
  | some c => AnnualExcessGen M S g p ≤ c * M.GenCapacity g p

/-- Whether constructing the `max_AnnualExcessGen` constraint over its full
index set succeeds (no rule evaluation raises). -/
def maxAnnualExcessGenBuildOk (M : ModelData) : Bool :=
  (maxAnnualExcessGenIndex M).all
    (fun gp => !(max_AnnualExcessGen_status M gp.1 gp.2 == ConStatus.buildError))

/-! ## Helper lemmas -/

theorem mem_NON_STORAGE_GENS (M : ModelData) (g : Nat) :
    g ∈ NON_STORAGE_GENS M ↔ g ∈ M.GENERATION_PROJECTS ∧ g ∉ M.STORAGE_GENS := by
  simp [NON_STORAGE_GENS, List.mem_filter]

theorem mem_NON_STORAGE_GEN_TPS (M : ModelData) (g t : Nat) :
    (g, t) ∈ NON_STORAGE_GEN_TPS M ↔ (g, t) ∈ M.GEN_TPS ∧ g ∉ M.STORAGE_GENS := by
  simp [NON_STORAGE_GEN_TPS, List.mem_filter]

theorem mem_TPS_IN_PERIOD (M : ModelData) (t p : Nat) :
    t ∈ TPS_IN_PERIOD M p ↔ t ∈ M.TIMEPOINTS ∧ M.tp_period t = p := by
  simp [TPS_IN_PERIOD, List.mem_filter]

theorem mem_TPS_IN_DAYS (M : ModelData) (t d : Nat) :
    t ∈ TPS_IN_DAYS M d ↔ t ∈ M.TIMEPOINTS ∧ M.tp_day t = d := by
  simp [TPS_IN_DAYS, List.mem_filter]

theorem mem_BASELOAD_GEN_PERIODS (M : ModelData) (g p : Nat) :
    (g, p) ∈ BASELOAD_GEN_PERIODS M ↔
      g ∈ M.BASELOAD_GENS ∧ p ∈ M.PERIODS_FOR_GEN g := by
  simp only [BASELOAD_GEN_PERIODS, List.mem_flatMap, List.mem_map,
    Prod.mk.injEq]
  constructor
  · rintro ⟨a, ha, p', hp', rfl, rfl⟩
    exact ⟨ha, hp'⟩
  · rintro ⟨hg, hp⟩
    exact ⟨g, hg, p, hp, rfl, rfl⟩

theorem mem_BASELOAD_GEN_TPS_of (M : ModelData) (g p t : Nat)
    (hgp : (g, p) ∈ BASELOAD_GEN_PERIODS M) (ht : t ∈ TPS_IN_PERIOD M p) :
    (g, t) ∈ BASELOAD_GEN_TPS M := by
  simp only [BASELOAD_GEN_TPS, List.mem_flatMap, List.mem_map]
  exact ⟨(g, p), hgp, t, ht, rfl⟩

/-! ## Concrete data for witnesses -/

/-- A small concrete model: two timepoints in day 1 and period 5, one
zone, a variable generator 1 (capacity 50, availability 1, capacity factor
2/5) and a baseload generator 2, no storage. -/
def data0 : ModelData :=
  { TIMEPOINTS := [10, 11]
    LOAD_ZONES := [0]
    PERIODS := [5]
    tp_day := fun _ => 1
    tp_period := fun _ => 5
    GENERATION_PROJECTS := [1, 2]
    VARIABLE_GENS := [1]
    BASELOAD_GENS := [2]
    STORAGE_GENS := []
    GEN_TPS := [(1, 10), (1, 11), (2, 10), (2, 11)]
    PERIODS_FOR_GEN := fun _ => [5]
    GenCapacityInTP := fun _ _ => 50
    gen_availability := fun _ => 1
    gen_max_capacity_factor := fun _ _ => 2 / 5
    GenCapacity := fun _ _ => 50
    gen_excess_max := fun _ => none
    zone_demand_mw := fun _ _ => 100 }

/-- The all-zero solution. -/
def sol0 : Solution :=
  { ShiftDemand := fun _ _ => 0
    DispatchGen := fun _ _ => 0
    DispatchBaseloadByPeriod := fun _ _ => 0 }

/-! ## Claim theorems for the dispatch-limit builder -/

/-- C2: for every `(g, t)` in `GEN_TPS`, `DispatchUpperLimit[g,t]` equals
`GenCapacityInTP * gen_availability * gen_max_capacity_factor` when `g` is
a variable generator and `GenCapacityInTP * gen_availability` otherwise;
and the constraint `DispatchGen[g,t] <= DispatchUpperLimit[g,t]` is
declared exactly for the non-storage pairs of `GEN_TPS`. -/
theorem claim_C2_dispatch_upper_limit (M : ModelData) (S : Solution) :
    (∀ g t, (g, t) ∈ M.GEN_TPS →
      DispatchUpperLimit M g t =
        (if g ∈ M.VARIABLE_GENS then
          M.GenCapacityInTP g t * M.gen_availability g *
            M.gen_max_capacity_factor g t
        else M.GenCapacityInTP g t * M.gen_availability g))
    ∧ (∀ g t,
        ((g, t) ∈ enforceDispatchUpperLimitIndex M ↔
          (g, t) ∈ M.GEN_TPS ∧ g ∉ M.STORAGE_GENS)
        ∧ (Enforce_Dispatch_Upper_Limit M S g t ↔
            S.DispatchGen g t ≤ DispatchUpperLimit M g t)) := by
  refine ⟨fun g t _ => rfl, fun g t => ⟨?_, Iff.rfl⟩⟩
  exact mem_NON_STORAGE_GEN_TPS M g t

/-- Witness for C2 at concrete data: a variable generator with capacity 50,
availability 1 and capacity factor 2/5. -/
theorem claim_C2_witness :
    DispatchUpperLimit data0 1 10 =
      (if 1 ∈ data0.VARIABLE_GENS then
        data0.GenCapacityInTP 1 10 * data0.gen_availability 1 *
          data0.gen_max_capacity_factor 1 10
      else data0.GenCapacityInTP 1 10 * data0.gen_availability 1) :=
  (claim_C2_dispatch_upper_limit data0 sol0).1 1 10 (by decide)

/-- C3: the variable `DispatchBaseloadByPeriod` is indexed by the baseload
(generator, period) pairs, the flattening equality is declared for every
timepoint of the pair's period, and any solution satisfying all declared
flattening constraints dispatches a baseload generator at one constant
level across each period. -/
theorem claim_C3_baseload_flat (M : ModelData) (S : Solution)
    (h : ∀ gt ∈ BASELOAD_GEN_TPS M,
      Enforce_Dispatch_Baseload_Flat M S gt.1 gt.2) :
    (∀ g p, (g, p) ∈ BASELOAD_GEN_PERIODS M ↔
      g ∈ M.BASELOAD_GENS ∧ p ∈ M.PERIODS_FOR_GEN g)
    ∧ (∀ g p t, (g, p) ∈ BASELOAD_GEN_PERIODS M → t ∈ TPS_IN_PERIOD M p →
        (g, t) ∈ BASELOAD_GEN_TPS M
        ∧ (Enforce_Dispatch_Baseload_Flat M S g t ↔
            S.DispatchGen g t = S.DispatchBaseloadByPeriod g p))
    ∧ (∀ g p t1 t2, (g, p) ∈ BASELOAD_GEN_PERIODS M →
        t1 ∈ TPS_IN_PERIOD M p → t2 ∈ TPS_IN_PERIOD M p →
        S.DispatchGen g t1 = S.DispatchGen g t2) := by
  refine ⟨fun g p => mem_BASELOAD_GEN_PERIODS M g p, fun g p t hgp ht => ?_,
    fun g p t1 t2 hgp h1 h2 => ?_⟩
  · refine ⟨mem_BASELOAD_GEN_TPS_of M g p t hgp ht, ?_⟩
    have hpt : M.tp_period t = p := ((mem_TPS_IN_PERIOD M t p).mp ht).2
    rw [Enforce_Dispatch_Baseload_Flat, hpt]
  · have e1 := h (g, t1) (mem_BASELOAD_GEN_TPS_of M g p t1 hgp h1)
    have e2 := h (g, t2) (mem_BASELOAD_GEN_TPS_of M g p t2 hgp h2)
    rw [Enforce_Dispatch_Baseload_Flat] at e1 e2
    rw [e1, e2, ((mem_TPS_IN_PERIOD M t1 p).mp h1).2,
      ((mem_TPS_IN_PERIOD M t2 p).mp h2).2]

/-- Witness for C3: with every flattening constraint satisfied by the
all-zero solution, the baseload generator 2 dispatches equally at the two
timepoints of period 5. -/
theorem claim_C3_witness :
    sol0.DispatchGen 2 10 = sol0.DispatchGen 2 11 :=
  (claim_C3_baseload_flat data0 sol0
    (by intro gt _; rfl)).2.2 2 5 10 11 (by decide) (by decide) (by decide)

/-- C4: over the non-storage pairs, `ExcessGen` is the gap to the upper
limit for variable generators and identically 0 otherwise, and any
solution satisfying the declared upper-limit constraints has
`ExcessGen[g,t] >= 0`. -/
theorem claim_C4_excess_gen (M : ModelData) (S : Solution)
    (h : ∀ gt ∈ NON_STORAGE_GEN_TPS M,
      Enforce_Dispatch_Upper_Limit M S gt.1 gt.2) :
    ∀ g t, (g, t) ∈ NON_STORAGE_GEN_TPS M →
      (ExcessGen M S g t =
        (if g ∈ M.VARIABLE_GENS then
          DispatchUpperLimit M g t - S.DispatchGen g t
        else 0))
      ∧ (g ∉ M.VARIABLE_GENS → ExcessGen M S g t = 0)
      ∧ 0 ≤ ExcessGen M S g t := by
  intro g t hgt
  have hub : S.DispatchGen g t ≤ DispatchUpperLimit M g t := h (g, t) hgt
  refine ⟨rfl, fun hv => by simp [ExcessGen, hv], ?_⟩
  by_cases hv : g ∈ M.VARIABLE_GENS
  · simp only [ExcessGen, if_pos hv]
    linarith
  · simp [ExcessGen, hv]

/-- Witness for C4 at concrete data: the all-zero solution satisfies the
upper-limit constraints, and `ExcessGen` at the variable generator 1 is
non-negative. -/
theorem claim_C4_witness :
    0 ≤ ExcessGen data0 sol0 1 10 :=
  (claim_C4_excess_gen data0 sol0
    (by
      intro gt _
      show sol0.DispatchGen gt.1 gt.2 ≤ DispatchUpperLimit data0 gt.1 gt.2
      have h0 : sol0.DispatchGen gt.1 gt.2 = 0 := rfl
      rw [h0, DispatchUpperLimit]
      split <;> norm_num [data0])
    1 10 (by decide)).2.2

/-- A concrete model with a single storage generator that carries a finite
`gen_excess_max`. -/
def dataStor : ModelData :=
  { TIMEPOINTS := [10, 11]
    LOAD_ZONES := [0]
    PERIODS := [5]
    tp_day := fun _ => 1
    tp_period := fun _ => 5
    GENERATION_PROJECTS := [1]
    VARIABLE_GENS := []
    BASELOAD_GENS := []
    STORAGE_GENS := [1]
    GEN_TPS := [(1, 10), (1, 11)]
    PERIODS_FOR_GEN := fun _ => [5]
    GenCapacityInTP := fun _ _ => 50
    gen_availability := fun _ => 1
    gen_max_capacity_factor := fun _ _ => 2 / 5
    GenCapacity := fun _ _ => 50
    gen_excess_max := fun _ => some 1
    zone_demand_mw := fun _ _ => 100 }

/-- C5 counterexample: it is not true that every generator with a finite
`gen_excess_max` gets a declared cap constraint in every period — storage
generator 1 of `dataStor` has the finite cap 1, yet evaluating the rule at
`(1, 5)` does not declare a constraint (it fails on the lookup
`AnnualExcessGen[1, 5]`). -/
theorem claim_C5_counterexample :
    ¬ (∀ g ∈ dataStor.GENERATION_PROJECTS, ∀ p ∈ dataStor.PERIODS,
        dataStor.gen_excess_max g ≠ none →
        max_AnnualExcessGen_status dataStor g p = ConStatus.declared) := by
  decide

/-- C5 amended: the rule is evaluated over all of
`GENERATION_PROJECTS × PERIODS`; a generator with `gen_excess_max = inf`
is skipped at every period; a non-storage generator with a finite cap `c`
gets, for every period, a declared constraint
`AnnualExcessGen[g,p] <= c * GenCapacity[g,p]`; a storage generator with a
finite cap makes the build fail instead of declaring a constraint. -/
theorem claim_C5_amended (M : ModelData) (S : Solution) :
    ∀ g ∈ M.GENERATION_PROJECTS, ∀ p ∈ M.PERIODS,
      ((g, p) ∈ maxAnnualExcessGenIndex M)
      ∧ (M.gen_excess_max g = none →
          max_AnnualExcessGen_status M g p = ConStatus.skip)
      ∧ (∀ c, M.gen_excess_max g = some c → g ∈ NON_STORAGE_GENS M →
          max_AnnualExcessGen_status M g p = ConStatus.declared
          ∧ (max_AnnualExcessGen_con M S g p ↔
              AnnualExcessGen M S g p ≤ c * M.GenCapacity g p))
      ∧ (∀ c, M.gen_excess_max g = some c → g ∉ NON_STORAGE_GENS M →
          max_AnnualExcessGen_status M g p = ConStatus.buildError) := by
  intro g hg p hp
  refine ⟨List.mem_product.mpr ⟨hg, hp⟩, fun hinf => ?_, fun c hc hns => ?_,
    fun c hc hns => ?_⟩
  · simp [max_AnnualExcessGen_status, hinf]
  · constructor
    · simp [max_AnnualExcessGen_status, hc, hns]
    · rw [max_AnnualExcessGen_con, hc]
  · simp [max_AnnualExcessGen_status, hc, hns]

/-- Witness for the amended C5: in `data0` every generator has the
infinite default cap, so index `(1, 5)` is present and skipped. -/
theorem claim_C5_witness :
    ((1, 5) ∈ maxAnnualExcessGenIndex data0)
    ∧ max_AnnualExcessGen_status data0 1 5 = ConStatus.skip :=
  ⟨(claim_C5_amended data0 sol0 1 (by decide) 5 (by decide)).1,
    (claim_C5_amended data0 sol0 1 (by decide) 5 (by decide)).2.1 rfl⟩

/-- C9: the annual-cap rule runs over all `(generator, period)` pairs but
`AnnualExcessGen` is indexed over non-storage generators only, so (when at
least one period exists) the build succeeds exactly when every generator
with a finite `gen_excess_max` is non-storage; at a storage generator with
a finite cap the rule evaluation fails on the lookup instead of skipping. -/
theorem claim_C9_storage_cap_build (M : ModelData) (hp : M.PERIODS ≠ []) :
    (maxAnnualExcessGenBuildOk M = true ↔
      ∀ g ∈ M.GENERATION_PROJECTS, M.gen_excess_max g ≠ none →
        g ∈ NON_STORAGE_GENS M)
    ∧ (∀ g ∈ M.GENERATION_PROJECTS, ∀ p ∈ M.PERIODS,
        M.gen_excess_max g ≠ none → g ∉ NON_STORAGE_GENS M →
        max_AnnualExcessGen_status M g p = ConStatus.buildError) := by
  constructor
  · constructor
    · intro hok g hg hfin
      by_contra hns
      obtain ⟨p, hp'⟩ := List.exists_mem_of_ne_nil _ hp
      have hmem : (g, p) ∈ maxAnnualExcessGenIndex M :=
        List.mem_product.mpr ⟨hg, hp'⟩
      have hval := List.all_eq_true.mp hok _ hmem
      obtain ⟨c, hc⟩ := Option.ne_none_iff_exists'.mp hfin
      simp [max_AnnualExcessGen_status, hc, hns] at hval
    · intro hall
      apply List.all_eq_true.mpr
      intro gp hgp
      obtain ⟨g, p⟩ := gp
      obtain ⟨hg, hp'⟩ := List.mem_product.mp hgp
      cases hc : M.gen_excess_max g with
      | none => simp [max_AnnualExcessGen_status, hc]
      | some c =>
        have hns := hall g hg (by simp [hc])
        simp [max_AnnualExcessGen_status, hc, hns]
  · intro g hg p hp' hfin hns
    obtain ⟨c, hc⟩ := Option.ne_none_iff_exists'.mp hfin
    simp [max_AnnualExcessGen_status, hc, hns]

/-- Witness for C9: the storage generator 1 of `dataStor` has the finite
cap 1, and evaluating the rule at `(1, 5)` fails the build. -/
theorem claim_C9_witness :
    max_AnnualExcessGen_status dataStor 1 5 = ConStatus.buildError :=
  (claim_C9_storage_cap_build dataStor (by decide)).2 1 (by decide) 5
    (by decide) (by decide) (by decide)

/-! ## Claim theorems for the demand-shift builder -/

theorem DAYS_iff (d : Nat) : d ∈ DAYS ↔ 1 ≤ d ∧ d ≤ 365 := by
  rw [DAYS, List.mem_range'_1]
  omega

theorem mem_drShiftNetZeroCons (M : ModelData) (z d : Nat) :
    (⟨z, d, TPS_IN_DAYS M d⟩ : DRCon) ∈ drShiftNetZeroCons M ↔
      z ∈ M.LOAD_ZONES ∧ d ∈ DAYS := by
  rw [drShiftNetZeroCons]
  constructor
  · intro h
    obtain ⟨zd, hzd, heq⟩ := List.mem_map.mp h
    have h1 : zd.1 = z := congrArg DRCon.zone heq
    have h2 : zd.2 = d := congrArg DRCon.day heq
    have hm := List.mem_product.mp (show (zd.1, zd.2) ∈ _ from hzd)
    rw [h1, h2] at hm
    exact hm
  · intro h
    exact List.mem_map.mpr ⟨(z, d), List.mem_product.mpr h, rfl⟩

theorem drShiftNetZeroCons_keys (M : ModelData) :
    (drShiftNetZeroCons M).map (fun c => (c.zone, c.day)) =
      M.LOAD_ZONES.product DAYS := by
  rw [drShiftNetZeroCons, List.map_map]
  have h : ((fun c : DRCon => (c.zone, c.day)) ∘
      fun zd : Nat × Nat => (⟨zd.1, zd.2, TPS_IN_DAYS M zd.2⟩ : DRCon)) = id := by
    funext zd
    rfl
  rw [h, List.map_id]

theorem buildDRShiftNetZero_eq_some (M : ModelData)
    (hcover : ∀ d ∈ DAYS, TPS_IN_DAYS M d ≠ []) :
    buildDRShiftNetZero M = some (drShiftNetZeroCons M) := by
  have hall : (M.LOAD_ZONES.product DAYS).all
      (fun zd => (DR_Shift_Net_Zero_rule M zd.1 zd.2).isSome) = true := by
    apply List.all_eq_true.mpr
    intro zd hzd
    obtain ⟨z, d⟩ := zd
    obtain ⟨-, hd⟩ := List.mem_product.mp hzd
    have hne : ¬ (TPS_IN_DAYS M d).isEmpty = true := by
      simpa [List.isEmpty_iff] using hcover d hd
    simp [DR_Shift_Net_Zero_rule, hne]
  simp [buildDRShiftNetZero, hall]

theorem buildDRShiftNetZero_eq_none (M : ModelData) (z d : Nat)
    (hzm : z ∈ M.LOAD_ZONES) (hd : d ∈ DAYS)
    (hempty : TPS_IN_DAYS M d = []) :
    buildDRShiftNetZero M = none := by
  cases hall : (M.LOAD_ZONES.product DAYS).all
      (fun zd => (DR_Shift_Net_Zero_rule M zd.1 zd.2).isSome) with
  | false => simp [buildDRShiftNetZero, hall]
  | true =>
    exfalso
    have hsome := List.all_eq_true.mp hall (z, d)
      (List.mem_product.mpr ⟨hzm, hd⟩)
    rw [DR_Shift_Net_Zero_rule, if_pos (by simp [hempty])] at hsome
    simp at hsome

/-- A concrete model covering every day: for each `d` in 1..365, the
timepoint numbered `d` is the single timepoint of day `d`. -/
def dataFull : ModelData :=
  { TIMEPOINTS := List.range' 1 365
    LOAD_ZONES := [0]
    PERIODS := [5]
    tp_day := fun t => t
    tp_period := fun _ => 5
    GENERATION_PROJECTS := []
    VARIABLE_GENS := []
    BASELOAD_GENS := []
    STORAGE_GENS := []
    GEN_TPS := []
    PERIODS_FOR_GEN := fun _ => []
    GenCapacityInTP := fun _ _ => 0
    gen_availability := fun _ => 0
    gen_max_capacity_factor := fun _ _ => 0
    GenCapacity := fun _ _ => 0
    gen_excess_max := fun _ => none
    zone_demand_mw := fun _ _ => 0 }

/-- C1 counterexample: it is not true of every model that a constraint is
declared for each (zone, day) pair — `data0` declares zone 0 and day 1 is
a valid day, yet constructing the `DR_Shift_Net_Zero` family aborts
(day 2 has no timepoints, so its rule evaluation is the native Boolean
`True`) and no constraint family at all is produced. -/
theorem claim_C1_counterexample :
    (0 ∈ data0.LOAD_ZONES ∧ 1 ∈ DAYS)
    ∧ buildDRShiftNetZero data0 = none := by
  decide

/-- C1 amended: provided every day 1..365 has at least one assigned
timepoint, construction succeeds and the builder declares exactly one
`DR_Shift_Net_Zero` constraint per (zone, day) pair — the (zone, day)
keys of the family are distinct and the constraint for `(z, d)` is
present exactly when `z` is a declared zone and `1 <= d <= 365` — each
constraint states that the sum of `ShiftDemand[zone, t]` over the
timepoints of its day is zero, and every timepoint appearing in a
constraint belongs to that constraint's day (a constraint mentions one
zone and one day only: no cross-day or cross-zone coupling).  If instead
some day 1..365 has no timepoints and a zone is declared, construction
aborts and no constraint is declared. -/
theorem claim_C1_amended (M : ModelData) (S : Solution)
    (hz : M.LOAD_ZONES.Nodup) :
    ((∀ d ∈ DAYS, TPS_IN_DAYS M d ≠ []) →
      buildDRShiftNetZero M = some (drShiftNetZeroCons M)
      ∧ ((drShiftNetZeroCons M).map (fun c => (c.zone, c.day))).Nodup
      ∧ (∀ z d, (⟨z, d, TPS_IN_DAYS M d⟩ : DRCon) ∈ drShiftNetZeroCons M ↔
          z ∈ M.LOAD_ZONES ∧ 1 ≤ d ∧ d ≤ 365)
      ∧ (∀ c ∈ drShiftNetZeroCons M,
          (DRCon.holds c S ↔
            ((TPS_IN_DAYS M c.day).map
              (fun t => S.ShiftDemand c.zone t)).sum = 0)
          ∧ ∀ t ∈ c.tps, M.tp_day t = c.day))
    ∧ (∀ z ∈ M.LOAD_ZONES, ∀ d ∈ DAYS, TPS_IN_DAYS M d = [] →
        buildDRShiftNetZero M = none) := by
  constructor
  · intro hcover
    refine ⟨buildDRShiftNetZero_eq_some M hcover, ?_, ?_, ?_⟩
    · rw [drShiftNetZeroCons_keys]
      exact hz.product (List.nodup_range' 1 365)
    · intro z d
      rw [mem_drShiftNetZeroCons, DAYS_iff]
    · intro c hc
      obtain ⟨zd, -, rfl⟩ := List.mem_map.mp hc
      exact ⟨Iff.rfl, fun t ht => ((mem_TPS_IN_DAYS M t zd.2).mp ht).2⟩
  · intro z hzm d hd hempty
    exact buildDRShiftNetZero_eq_none M z d hzm hd hempty

/-- Witness for the amended C1: in `dataFull`, where every day 1..365 has
a timepoint, construction succeeds and yields the one-per-(zone, day)
family. -/
theorem claim_C1_witness :
    buildDRShiftNetZero dataFull = some (drShiftNetZeroCons dataFull) :=
  ((claim_C1_amended dataFull sol0 (by decide)).1
    (by
      intro d hd
      have hmem : d ∈ TPS_IN_DAYS dataFull d :=
        (mem_TPS_IN_DAYS dataFull d d).mpr ⟨hd, rfl⟩
      exact List.ne_nil_of_mem hmem)).1

/-- C6: `ShiftDemand` is declared over all (zone, timepoint) pairs; its
feasible interval is exactly `[-dr_shift_down_limit, dr_shift_up_limit]`;
under the load-time validation both limits are non-negative; and a pair
with no `dr_data.csv` row takes the defaults 0 and plus infinity. -/
theorem claim_C6_shift_demand_interval (M : ModelData) (S : Solution)
    (rows : List DRRow) (hv : drDataValid M rows = true) :
    ∀ z t,
      ((z, t) ∈ shiftDemandIndex M ↔ z ∈ M.LOAD_ZONES ∧ t ∈ M.TIMEPOINTS)
      ∧ (ShiftDemand_bounds (dr_shift_down_limit rows) (dr_shift_up_limit rows)
            S z t ↔
          ((-1 : ℚ) * dr_shift_down_limit rows z t ≤ S.ShiftDemand z t
            ∧ leUB (S.ShiftDemand z t) (dr_shift_up_limit rows z t)))
      ∧ 0 ≤ dr_shift_down_limit rows z t
      ∧ ubNonneg (dr_shift_up_limit rows z t)
      ∧ (lookupDR rows z t = none →
          dr_shift_down_limit rows z t = 0 ∧ dr_shift_up_limit rows z t = none) := by
  intro z t
  refine ⟨List.mem_product, Iff.rfl, ?_, ?_, ?_⟩
  · rw [dr_shift_down_limit]
    cases hfind : lookupDR rows z t with
    | none => norm_num
    | some r =>
      have hr : r ∈ rows := List.mem_of_find?_eq_some hfind
      have hvr := List.all_eq_true.mp hv r hr
      simp only [Bool.and_eq_true, decide_eq_true_eq] at hvr
      exact hvr.1.1.2
  · rw [dr_shift_up_limit]
    cases hfind : lookupDR rows z t with
    | none => exact trivial
    | some r =>
      have hr : r ∈ rows := List.mem_of_find?_eq_some hfind
      have hvr := List.all_eq_true.mp hv r hr
      simp only [Bool.and_eq_true, decide_eq_true_eq] at hvr
      exact hvr.2
  · intro hnone
    rw [dr_shift_down_limit, dr_shift_up_limit, hnone]
    exact ⟨rfl, rfl⟩

/-- Rows used by the C6 witness: a single row bounding zone 0 at
timepoint 10 by 5 MW in both directions. -/
def rows0 : List DRRow := [⟨0, 10, 5, 5⟩]

/-- Witness for C6: `rows0` passes validation against `data0` and yields a
non-negative down-limit at (0, 10). -/
theorem claim_C6_witness :
    0 ≤ dr_shift_down_limit rows0 0 10 :=
  ((claim_C6_shift_demand_interval data0 sol0 rows0 (by decide)) 0 10).2.2.1

/-- A `dr_data.csv` row carrying a negative down-limit for zone 0 at
timepoint 10 (where `data0`'s demand is 100). -/
def rowNeg : DRRow := ⟨0, 10, -1, 5⟩

/-- C7 counterexample: a down-limit value that is less than or equal to
the demand is not always accepted — the value `-1` of `rowNeg` does not
exceed the demand 100, yet loading it aborts model construction, because
the Param's domain is `NonNegativeReals`. -/
theorem claim_C7_counterexample :
    rowNeg.down ≤ data0.zone_demand_mw rowNeg.zone rowNeg.tp
    ∧ buildDRParams data0 [rowNeg] = none := by
  constructor
  · show (-1 : ℚ) ≤ 100
    norm_num
  · rfl

/-- C7 amended: a `dr_shift_down_limit` value strictly greater than the
zone's demand at that timepoint aborts model construction at load time (no
partial model); a row set whose values are non-negative, index declared
pairs and whose down-limits do not exceed the demand is accepted; a
negative value is likewise rejected by the Param domain
`NonNegativeReals`. -/
theorem claim_C7_amended (M : ModelData) (rows : List DRRow) :
    ((∃ r ∈ rows, M.zone_demand_mw r.zone r.tp < r.down) →
      buildDRParams M rows = none)
    ∧ ((∀ r ∈ rows, r.zone ∈ M.LOAD_ZONES ∧ r.tp ∈ M.TIMEPOINTS
          ∧ 0 ≤ r.down ∧ r.down ≤ M.zone_demand_mw r.zone r.tp ∧ 0 ≤ r.up) →
        buildDRParams M rows =
          some (dr_shift_down_limit rows, dr_shift_up_limit rows)) := by
  constructor
  · rintro ⟨r, hr, hlt⟩
    have hfalse : drDataValid M rows = false := by
      cases hdv : drDataValid M rows with
      | false => rfl
      | true =>
        have hvr := List.all_eq_true.mp hdv r hr
        simp only [Bool.and_eq_true, decide_eq_true_eq] at hvr
        exact absurd hvr.1.2 (not_le.mpr hlt)
    simp [buildDRParams, hfalse]
  · intro h
    have htrue : drDataValid M rows = true := by
      apply List.all_eq_true.mpr
      intro r hr
      obtain ⟨h1, h2, h3, h4, h5⟩ := h r hr
      simp [h1, h2, h3, h4, h5]
    simp [buildDRParams, htrue]

/-- Witness for the amended C7: a row whose down-limit 200 exceeds the
demand 100 aborts construction. -/
theorem claim_C7_witness :
    buildDRParams data0 [⟨0, 10, 200, 5⟩] = none :=
  (claim_C7_amended data0 [⟨0, 10, 200, 5⟩]).1
    ⟨⟨0, 10, 200, 5⟩, by decide, by decide⟩

theorem list_sum_zero_of_nonneg (l : List ℚ) (h0 : ∀ x ∈ l, 0 ≤ x)
    (hs : l.sum = 0) : ∀ x ∈ l, x = 0 := by
  induction l with
  | nil => intro x hx; cases hx
  | cons a l ih =>
    have ha : 0 ≤ a := h0 a (List.mem_cons_self a l)
    have hl0 : ∀ x ∈ l, 0 ≤ x := fun x hx => h0 x (List.mem_cons_of_mem a hx)
    have hlsum : 0 ≤ l.sum := List.sum_nonneg hl0
    rw [List.sum_cons] at hs
    have ha0 : a = 0 := by linarith
    have hls : l.sum = 0 := by linarith
    intro x hx
    rcases List.mem_cons.mp hx with h | h
    · rw [h, ha0]
    · exact ih hl0 hls x h

/-- C8: with the optional `dr_data.csv` absent (no rows), construction
succeeds and both Params take their defaults (down-limit 0, up-limit plus
infinity) everywhere; and any solution satisfying the declared bounds and
the day-scoped net-zero constraints for a zone has `ShiftDemand[z,t] = 0`
at every timepoint. -/
theorem claim_C8_absent_input_forces_zero (M : ModelData) (S : Solution)
    (z t : Nat) (ht : t ∈ M.TIMEPOINTS) (hday : M.tp_day t ∈ DAYS)
    (hb : ∀ t' ∈ M.TIMEPOINTS,
      ShiftDemand_bounds (dr_shift_down_limit []) (dr_shift_up_limit []) S z t')
    (hnet : ∀ d ∈ DAYS, DR_Shift_Net_Zero M S z d) :
    buildDRParams M [] =
      some (dr_shift_down_limit [], dr_shift_up_limit [])
    ∧ (∀ z' t', dr_shift_down_limit [] z' t' = 0
        ∧ dr_shift_up_limit [] z' t' = none)
    ∧ S.ShiftDemand z t = 0 := by
  refine ⟨rfl, fun z' t' => ⟨rfl, rfl⟩, ?_⟩
  have hsum := hnet (M.tp_day t) hday
  rw [DR_Shift_Net_Zero] at hsum
  have hmem : S.ShiftDemand z t ∈
      (TPS_IN_DAYS M (M.tp_day t)).map (fun t' => S.ShiftDemand z t') :=
    List.mem_map_of_mem _ ((mem_TPS_IN_DAYS M t (M.tp_day t)).mpr ⟨ht, rfl⟩)
  refine list_sum_zero_of_nonneg _ ?_ hsum _ hmem
  intro x hx
  obtain ⟨t', ht', rfl⟩ := List.mem_map.mp hx
  have ht'' : t' ∈ M.TIMEPOINTS := ((mem_TPS_IN_DAYS M t' _).mp ht').1
  have hlow := (hb t' ht'').1
  have h0 : dr_shift_down_limit [] z t' = 0 := rfl
  rw [h0] at hlow
  linarith

/-- Witness for C8: in `data0` with no `dr_data.csv` rows, the all-zero
solution meets the default bounds and the net-zero constraints, and
`ShiftDemand[0, 10]` is forced to 0. -/
theorem claim_C8_witness :
    buildDRParams data0 [] =
      some (dr_shift_down_limit [], dr_shift_up_limit [])
    ∧ (∀ z' t', dr_shift_down_limit [] z' t' = 0
        ∧ dr_shift_up_limit [] z' t' = none)
    ∧ sol0.ShiftDemand 0 10 = 0 :=
  claim_C8_absent_input_forces_zero data0 sol0 0 10 (by decide) (by decide)
    (by
      intro t' _
      exact ⟨by show (-1 : ℚ) * 0 ≤ 0; norm_num, trivial⟩)
    (by
      intro d _
      rw [DR_Shift_Net_Zero]
      apply List.sum_eq_zero
      intro x hx
      obtain ⟨t', -, rfl⟩ := List.mem_map.mp hx
      rfl)

/-- C10 counterexample: a day with no assigned timepoints does not yield
a trivially satisfied constraint — in `data0`, day 42 has no timepoints,
its rule evaluation produces no constraint (the native Boolean `True`),
and the build of the whole family fails instead of succeeding. -/
theorem claim_C10_counterexample :
    (0 ∈ data0.LOAD_ZONES ∧ 42 ∈ DAYS ∧ TPS_IN_DAYS data0 42 = [])
    ∧ DR_Shift_Net_Zero_rule data0 0 42 = none
    ∧ buildDRShiftNetZero data0 ≠ some (drShiftNetZeroCons data0) := by
  decide

/-- C10 amended: the day-scoped balance rule is evaluated for every
(zone, day) pair over all 365 days, including days to which no timepoint
is assigned; but for such a day the rule's body collapses to the native
Boolean `True` (empty sum equal to zero), which Pyomo rejects at
constraint construction, so a partially covered year makes the build fail
with a ValueError rather than producing a trivially satisfied constraint.
A day with timepoints yields the net-zero equality over them, and every
constraint the rule can declare is satisfied by the zero shift. -/
theorem claim_C10_amended (M : ModelData) (S : Solution) :
    (∀ z ∈ M.LOAD_ZONES, ∀ d ∈ DAYS, TPS_IN_DAYS M d = [] →
      DR_Shift_Net_Zero_rule M z d = none ∧ buildDRShiftNetZero M = none)
    ∧ (∀ z d, TPS_IN_DAYS M d ≠ [] →
        DR_Shift_Net_Zero_rule M z d = some ⟨z, d, TPS_IN_DAYS M d⟩)
    ∧ (∀ c, (∃ z d, DR_Shift_Net_Zero_rule M z d = some c) →
        DRCon.holds c
          ⟨fun _ _ => 0, S.DispatchGen, S.DispatchBaseloadByPeriod⟩) := by
  refine ⟨?_, ?_, ?_⟩
  · intro z hzm d hd hempty
    exact ⟨by rw [DR_Shift_Net_Zero_rule, if_pos (by simp [hempty])],
      buildDRShiftNetZero_eq_none M z d hzm hd hempty⟩
  · intro z d hne
    have he : ¬ (TPS_IN_DAYS M d).isEmpty = true := by
      simpa [List.isEmpty_iff] using hne
    rw [DR_Shift_Net_Zero_rule, if_neg he]
  · intro c hc
    obtain ⟨z, d, hzd⟩ := hc
    rw [DR_Shift_Net_Zero_rule] at hzd
    by_cases he : (TPS_IN_DAYS M d).isEmpty = true
    · rw [if_pos he] at hzd
      cases hzd
    · rw [if_neg he] at hzd
      injection hzd with h
      rw [← h, DRCon.holds]
      apply List.sum_eq_zero
      intro x hx
      obtain ⟨t', -, rfl⟩ := List.mem_map.mp hx
      rfl

/-- Witness for the amended C10: in `data0`, the empty day 42 makes the
rule degenerate and the build fail, while the covered day 1 yields the
declared net-zero constraint. -/
theorem claim_C10_witness :
    (DR_Shift_Net_Zero_rule data0 0 42 = none
      ∧ buildDRShiftNetZero data0 = none)
    ∧ DR_Shift_Net_Zero_rule data0 0 1 =
        some ⟨0, 1, TPS_IN_DAYS data0 1⟩ :=
  ⟨(claim_C10_amended data0 sol0).1 0 (by decide) 42 (by decide) (by decide),
    (claim_C10_amended data0 sol0).2.1 0 1 (by decide)⟩
